import Mathlib

/-!
Verification of the x730 control daemon (`x730.py`, `daemon.py`) against its
natural-language specification.  The Python sources are shallowly embedded:
pure control flow becomes Lean functions, durations become exact rationals
(float comparisons are order-faithful under this mapping), side effects become
explicit event traces, and Python exceptions become `Except` / `Option` error
values.
-/

namespace X730Spec

/-! ## Embedding of `x730.py` -/

/-- Classification outcome of a shutdown-status pulse. -/
inductive Action where
  | Ignored
  | Reboot
  | PowerOff
deriving DecidableEq, Repr

/-- Constant `X730.SHUTDOWN_STATUS_REBOOT_PULSE_MINIMUM = 0.2`. -/
def SHUTDOWN_STATUS_REBOOT_PULSE_MINIMUM : ℚ := 1/5

/-- Constant `X730.SHUTDOWN_STATUS_REBOOT_PULSE_MAXIMUM = 0.6`. -/
def SHUTDOWN_STATUS_REBOOT_PULSE_MAXIMUM : ℚ := 3/5

/-- Constant `X730.SHUTDOWN_BUTTON_REBOOT_PULSE = 1.2`. -/
def SHUTDOWN_BUTTON_REBOOT_PULSE : ℚ := 6/5

/-- Constant `X730.SHUTDOWN_BUTTON_POWEROFF_PULSE = 5`. -/
def SHUTDOWN_BUTTON_POWEROFF_PULSE : ℚ := 5

/-- Constant `X730.SHUTDOWN_BUTTON_CRASH_PULSE = 10`. -/
def SHUTDOWN_BUTTON_CRASH_PULSE : ℚ := 10

/-- Pulse classification, embedded from the tail of `X730._on_shutdown_status`:
`is_min_pulse = pulse > min_pulse; if not is_min_pulse: return` (short pulse,
ignored), then `is_reboot_pulse = pulse < reboot_pulse`, rebooting when true
and powering off otherwise. -/
def classifyPulse (pulse : ℚ) : Action :=
  if ¬ (pulse > SHUTDOWN_STATUS_REBOOT_PULSE_MINIMUM) then
    Action.Ignored
  else if pulse < SHUTDOWN_STATUS_REBOOT_PULSE_MAXIMUM then
    Action.Reboot
  else
    Action.PowerOff

/-- Embedding of `X730._on_shutdown_status`.  The stored status is the pair
`(level, monotonic timestamp)`; the callback receives the new level and the
current time.  `none` models the early return on anything but a High→Low edge
(`diff_shutdown_status[0] == -1`); on a falling edge the pulse duration is
classified. -/
def onShutdownStatus (old : Bool × ℚ) (status : Bool) (now : ℚ) :
    (Bool × ℚ) × Option Action :=
  let newStatus := (status, now)
  let diffLevel : ℤ := (if status then 1 else 0) - (if old.1 then 1 else 0)
  let pulse : ℚ := now - old.2
  if diffLevel ≠ -1 then
    (newStatus, none)
  else
    (newStatus, some (classifyPulse pulse))

/-- Primitive side effects performed by the board-control methods. -/
inductive Op where
  | pinOn
  | pinOff
  | sleep (d : ℚ)
  | sysPoweroff
  | sysReboot
  | mutexAcquire
  | mutexRelease
deriving DecidableEq, Repr

/-- The duration slept by `X730.poweroff`:
`X730.SHUTDOWN_BUTTON_POWEROFF_PULSE if not force else X730.SHUTDOWN_BUTTON_CRASH_PULSE`. -/
def poweroffHold (force : Bool) : ℚ :=
  if ¬ force then SHUTDOWN_BUTTON_POWEROFF_PULSE else SHUTDOWN_BUTTON_CRASH_PULSE

/-- Event trace of `X730.poweroff(force)`: `_shutdown_button_pin.on()`,
`time.sleep(...)`, `_shutdown_button_pin.off()`.  The method body contains no
lock operation and no direct OS call. -/
def poweroffOps (force : Bool) : List Op :=
  [Op.pinOn, Op.sleep (poweroffHold force), Op.pinOff]

/-- Event trace of `X730.reboot()`: `_shutdown_button_pin.on()`,
`time.sleep(X730.SHUTDOWN_BUTTON_REBOOT_PULSE)`, `_shutdown_button_pin.off()`. -/
def rebootOps : List Op :=
  [Op.pinOn, Op.sleep SHUTDOWN_BUTTON_REBOOT_PULSE, Op.pinOff]

/-- Event trace of `X730._sys_poweroff`: the OS power-off call lives here
(invoked from the shutdown-status classification path), not in `X730.poweroff`. -/
def sysPoweroffOps : List Op :=
  [Op.sysPoweroff]

/-- Recognizer for the OS power-off call in an event trace. -/
def isSysPoweroff : Op → Bool
  | Op.sysPoweroff => true
  | _ => false

/-- An interleaving of two event traces: `Interleave xs ys zs` holds when `zs`
merges `xs` and `ys` preserving each one's order.  With no mutex in the
embedded programs, every interleaving of two concurrent calls is possible. -/
inductive Interleave : List Op → List Op → List Op → Prop where
  | nil : Interleave [] [] []
  | left {x : Op} {xs ys zs : List Op} :
      Interleave xs ys zs → Interleave (x :: xs) ys (x :: zs)
  | right {y : Op} {xs ys zs : List Op} :
      Interleave xs ys zs → Interleave xs (y :: ys) (y :: zs)

/-- A trace in which the two pin activations happen before either
deactivation: interleaved pin toggling of a concurrent `reboot()` and
`poweroff(force)`. -/
def interleavedTrace (force : Bool) : List Op :=
  [Op.pinOn, Op.pinOn, Op.sleep SHUTDOWN_BUTTON_REBOOT_PULSE,
   Op.sleep (poweroffHold force), Op.pinOff, Op.pinOff]

/-! ## Idempotent open/close of the `X730` resource (`X730.open` / `X730.close`) -/

/-- State of an `X730` instance relevant to `open`/`close`: the `_opened`
flag and whether each of the three pin devices is allocated. -/
structure X730State where
  opened : Bool
  bootStatusPin : Bool
  shutdownButtonPin : Bool
  shutdownStatusPin : Bool
deriving DecidableEq, Repr

/-- State established by `X730.__init__`: not opened, all pin attributes `None`. -/
def initX730 : X730State :=
  { opened := false, bootStatusPin := false,
    shutdownButtonPin := false, shutdownStatusPin := false }

/-- Pin-level actions performed by `open`/`close`. -/
inductive PinEv where
  | allocBoot
  | allocButton
  | allocStatus
  | closeBoot
  | closeButton
  | closeStatus
deriving DecidableEq, Repr

/-- Embedding of `X730.open`: early return when `_opened`, otherwise set the
flag and allocate the three pin devices. -/
def x730Open (s : X730State) : X730State × List PinEv :=
  if s.opened then (s, [])
  else
    ({ opened := true, bootStatusPin := true,
       shutdownButtonPin := true, shutdownStatusPin := true },
     [PinEv.allocBoot, PinEv.allocButton, PinEv.allocStatus])

/-- Embedding of `X730.close`: early return when not `_opened`, otherwise
clear the flag and close and null out the three pin devices. -/
def x730Close (s : X730State) : X730State × List PinEv :=
  if ¬ s.opened then (s, [])
  else
    ({ opened := false, bootStatusPin := false,
       shutdownButtonPin := false, shutdownStatusPin := false },
     [PinEv.closeBoot, PinEv.closeButton, PinEv.closeStatus])

/-! ## Embedding of `daemon.py` -/

/-- Embedded result of the Python `limit is None or len(buffer) < limit` test,
negated as in `_sock_receive_all`: `true` means the guard fires and
`OverflowError` is raised. -/
def limitExceeded (limit : Option ℕ) (len : ℕ) : Bool :=
  match limit with
  | none => false
  | some l => ! decide (len < l)

/-- Embedding of `_sock_receive_all`.  The socket is modelled by the list of
chunks successive `recv` calls return; an empty chunk (or exhaustion of the
list) models the peer closing the stream.  Each loop iteration first checks
the limit (raising `OverflowError` when the buffer has reached it, before any
further read), then reads one chunk, breaking on end-of-stream and otherwise
extending the buffer. -/
def sockReceiveAll (limit : Option ℕ) : List (List ℕ) → List ℕ → Except String (List ℕ)
  | chunks, buffer =>
    if limitExceeded limit buffer.length then
      Except.error "socket receive limit exceeded"
    else
      match chunks with
      | [] => Except.ok buffer
      | c :: rest =>
        if c = [] then Except.ok buffer
        else sockReceiveAll limit rest (buffer ++ c)

/-- Opaque JSON-serializable values carried in requests and responses. -/
inductive JValue where
  | null
  | bool (b : Bool)
  | num (n : ℤ)
  | str (s : String)
deriving DecidableEq, Repr

/-- Embedding of the `ApiRequest` dataclass: `api_id`, `args`, `kwargs`. -/
structure ApiRequest where
  api_id : String
  args : List JValue
  kwargs : List (String × JValue)
deriving DecidableEq, Repr

/-- Embedding of the `ApiResponse` dataclass: `api_id`, `response`,
`exception`. -/
structure ApiResponse where
  api_id : String
  response : JValue
  exception : Bool
deriving DecidableEq, Repr

/-- Constant `API.DEFAULT_API_ID = ''`. -/
def DEFAULT_API_ID : String := ""

/-- Embedding of the classmethod `API.api_id`, the documented generator of the
default API identifier: `f"{func.__qualname__}"`, i.e. the fully qualified
name of the decorated function. -/
def API.api_id (qualname : String) : String := qualname

/-- Python `a or b` on a string and an optional value: the empty string is
falsy, so it yields `b`; any other string yields itself. -/
def pyStrOr (a : String) (b : Option String) : Option String :=
  if a = "" then b else some a

/-- The two attributes an `API` decorator instance carries after `__call__`:
`api_id` as passed to the constructor (never touched again), and `api`, which
`__call__` sets to `self.api_id or API.get_api(func)`. -/
structure APIData where
  api_id : String
  api : Option String
deriving DecidableEq, Repr

/-- Embedding of `API.__call__` applied to a freshly declared method:
`API.get_api(func)` on an undecorated function returns `None`, and the
assignment targets the attribute `api`, leaving `api_id` as passed to the
decorator.  The function's qualified name is never consulted. -/
def API.call (passed_api_id : String) (func_attr : Option String) : APIData :=
  { api_id := passed_api_id, api := pyStrOr passed_api_id func_attr }

/-- The `API` data registered on `Daemon.reboot` by `@API(api_id=API.DEFAULT_API_ID)`. -/
def registeredReboot : APIData := API.call DEFAULT_API_ID none

/-- The `API` data registered on `Daemon.poweroff` by `@API(api_id=API.DEFAULT_API_ID)`. -/
def registeredPoweroff : APIData := API.call DEFAULT_API_ID none

/-- Modelled from the spec: `Server.serve` in the source is an unimplemented
stub (`def serve: # TODO serve; pass`).  Per the spec (§4.5), serving one
connection reads one framed request, resolves its call identifier in the
registry, executes the bound call, and serializes exactly one response whose
`api_id` echoes the request; an unknown identifier or a raising handler is
turned into a failure response (`exception = true`), never a crash. -/
def serve
    (registry : List (String × (List JValue → List (String × JValue) → Except String JValue)))
    (req : ApiRequest) : ApiResponse :=
  match registry.find? (fun e => e.1 == req.api_id) with
  | none =>
      { api_id := req.api_id, response := JValue.str "unknown api id", exception := true }
  | some e =>
      match e.2 req.args req.kwargs with
      | Except.ok v => { api_id := req.api_id, response := v, exception := false }
      | Except.error m => { api_id := req.api_id, response := JValue.str m, exception := true }

/-- Observable state of the daemon lock file when a client calls. -/
inductive LockFileState where
  | missing
  | unlocked
  | lockedByDaemon
deriving DecidableEq, Repr

/-- Errors a client call can surface. -/
inductive ClientError where
  | fileNotFound
  | daemonNotRunning
  | remoteFailure (msg : String)
deriving DecidableEq, Repr

/-- Embedding of the lock probe at the head of `Client._api_call`:
`open(self._lock_file, "r+")` raises `FileNotFoundError` when the file does
not exist; otherwise `flock(LOCK_EX | LOCK_NB)` succeeding means no daemon
holds the lock, so after unlocking a `RuntimeError` ("Daemon not running") is
raised; `flock` raising `OSError` (caught) means the daemon holds the lock and
the probe passes. -/
def probeLock : LockFileState → Except ClientError Unit
  | LockFileState.missing => Except.error ClientError.fileNotFound
  | LockFileState.unlocked => Except.error ClientError.daemonNotRunning
  | LockFileState.lockedByDaemon => Except.ok ()

/-- Embedding of `Client._api_call`: run the lock probe, and only when it
passes connect to the socket, send the request and read the response (the
transport exchange is abstracted by `serverResponse`).  The boolean records
whether a connection was attempted. -/
def apiCall (ls : LockFileState) (serverResponse : ApiResponse) :
    Bool × Except ClientError ApiResponse :=
  match probeLock ls with
  | Except.error e => (false, Except.error e)
  | Except.ok _ => (true, Except.ok serverResponse)

/-- Resource-relevant state of a `Server` instance.  `lockFdSet` records
whether the attribute `self._lock_fd` has ever been assigned (it is assigned
only after a successful `flock`, and `Server.__init__` does not initialize
it); `lockFdOpen` records whether that descriptor is open, which is also
whether the advisory lock is held. -/
structure ServerState where
  x730Opened : Bool
  lockFdSet : Bool
  lockFdOpen : Bool
  socketSet : Bool
  sockFileExists : Bool
  lockFileExists : Bool
deriving DecidableEq, Repr

/-- Python exceptions the server lifecycle can raise. -/
inductive PyError where
  | attributeError
  | fileNotFoundError
  | osError
deriving DecidableEq, Repr

/-- Release actions performed during `Server.close`. -/
inductive TeardownEv where
  | socketClose
  | sockFileUnlink
  | flockUnlock
  | lockFdClose
  | lockFileUnlink
  | x730Close
deriving DecidableEq, Repr

/-- State of a `Server` as constructed (`_socket = None`, fresh un-opened
`X730`, lock fd attribute never assigned, no runtime files). -/
def initialServerState : ServerState :=
  { x730Opened := false, lockFdSet := false, lockFdOpen := false,
    socketSet := false, sockFileExists := false, lockFileExists := false }

/-- Embedding of `Server.open` (`self._x730.open()` then `_setup_socket`),
with the two failure points the spec discusses injected as flags: `flockFails`
models another process holding the lock (the `flock` call raises, the fd is
closed and the error re-raised before `self._lock_fd` is assigned);
`bindFails` models `socket.bind` raising after `self._socket` has already been
assigned, before the socket file exists. -/
def serverOpen (flockFails bindFails : Bool) : ServerState × Option PyError :=
  let s1 := { initialServerState with x730Opened := true }
  let s2 := { s1 with lockFileExists := true }
  if flockFails then (s2, some PyError.osError)
  else
    let s3 := { s2 with lockFdSet := true, lockFdOpen := true }
    let s4 := { s3 with socketSet := true }
    if bindFails then (s4, some PyError.osError)
    else ({ s4 with sockFileExists := true }, none)

/-- Embedding of `Server._teardown_socket`.  Reading `self._lock_fd` raises
`AttributeError` when the attribute was never assigned.  The `try` block
closes the socket and unlinks the socket file (raising `FileNotFoundError`
when it does not exist), then releases the `flock`; the `finally` block closes
the lock fd (which releases the advisory lock at the OS level) and unlinks the
lock file.  An exception raised in `finally` replaces one from `try`. -/
def teardownSocket (s : ServerState) : ServerState × List TeardownEv × Option PyError :=
  if ¬ s.lockFdSet then (s, [], some PyError.attributeError)
  else
    let tryStep : ServerState × List TeardownEv × Option PyError :=
      if s.socketSet then
        if s.sockFileExists then
          ({ s with sockFileExists := false },
           [TeardownEv.socketClose, TeardownEv.sockFileUnlink], none)
        else
          (s, [TeardownEv.socketClose], some PyError.fileNotFoundError)
      else (s, [], none)
    let s1 := tryStep.1
    let unlockStep : List TeardownEv × Option PyError :=
      match tryStep.2.2 with
      | some e => ([], some e)
      | none => ([TeardownEv.flockUnlock], none)
    let s2 := { s1 with lockFdOpen := false }
    let finallyStep : ServerState × List TeardownEv × Option PyError :=
      if s2.lockFileExists then
        ({ s2 with lockFileExists := false },
         [TeardownEv.lockFdClose, TeardownEv.lockFileUnlink], none)
      else
        (s2, [TeardownEv.lockFdClose], some PyError.fileNotFoundError)
    (finallyStep.1,
     tryStep.2.1 ++ unlockStep.1 ++ finallyStep.2.1,
     match finallyStep.2.2 with
     | some e => some e
     | none => unlockStep.2)

/-- Embedding of `Server.close`: `_teardown_socket()` then `self._x730.close()`
inside a `try` whose `finally` sets `self._socket = None`; an exception from
the teardown skips the `X730` release and propagates. -/
def serverClose (s : ServerState) : ServerState × List TeardownEv × Option PyError :=
  let td := teardownSocket s
  match td.2.2 with
  | some e => ({ td.1 with socketSet := false }, td.2.1, some e)
  | none =>
    let s1 := td.1
    if s1.x730Opened then
      ({ s1 with x730Opened := false, socketSet := false },
       td.2.1 ++ [TeardownEv.x730Close], none)
    else
      ({ s1 with socketSet := false }, td.2.1, none)

/-- The loop condition `not stop_event or not stop_event.is_set()` of
`Server.serve_until` before iteration `i`: `true` when no stop event was
supplied (Python `not None` is truthy), otherwise the negation of the event
state `f i` at the start of the iteration. -/
def serveKeepGoing (stop : Option (ℕ → Bool)) (i : ℕ) : Bool :=
  match stop with
  | none => true
  | some f => ! f i

/-- The warning logged by iteration `i` of `serve_until`: nothing when
`serve()` returned, the caught message when it raised. -/
def serveLogged (res : ℕ → Except String Unit) (i : ℕ) : List String :=
  match res i with
  | Except.ok _ => []
  | Except.error m => [m]

/-- Embedding of `Server.serve_until`: each iteration first evaluates the
loop condition, then runs `self.serve()` inside `try/except Exception`,
logging a warning on failure and continuing.  The loop is embedded with
explicit fuel; `res i` gives the outcome of the `i`-th `serve()` call.  The
result is the number of `serve()` calls performed and the logged warnings. -/
def serveUntilRun (stop : Option (ℕ → Bool)) (res : ℕ → Except String Unit) :
    ℕ → ℕ → ℕ × List String
  | _, 0 => (0, [])
  | i, fuel + 1 =>
    if serveKeepGoing stop i then
      ((serveUntilRun stop res (i + 1) fuel).1 + 1,
       serveLogged res i ++ (serveUntilRun stop res (i + 1) fuel).2)
    else (0, [])

/-! ## Theorems -/

/-- Helper: `classifyPulse` as a chain of closed-form conditions. -/
theorem classifyPulse_eq (d : ℚ) :
    classifyPulse d =
      if d ≤ SHUTDOWN_STATUS_REBOOT_PULSE_MINIMUM then Action.Ignored
      else if d < SHUTDOWN_STATUS_REBOOT_PULSE_MAXIMUM then Action.Reboot
      else Action.PowerOff := by
  unfold classifyPulse
  simp only [gt_iff_lt, not_lt]

/-- C1, counterexample: the claim states that the boundary value
`d = MIN_THRESHOLD` classifies as Reboot, but the code tests
`pulse > min_pulse` strictly, so the boundary pulse is Ignored. -/
theorem c1_boundary_counterexample :
    classifyPulse SHUTDOWN_STATUS_REBOOT_PULSE_MINIMUM = Action.Ignored ∧
    Action.Ignored ≠ Action.Reboot := by
  refine ⟨?_, by decide⟩
  rw [classifyPulse_eq, if_pos le_rfl]

/-- C1 (amended): on a falling edge of the shutdown status line the pulse
duration `d` is classified Ignored iff `d ≤ MIN_THRESHOLD` (the lower boundary
is Ignored, not Reboot), Reboot iff `MIN_THRESHOLD < d < MAX_THRESHOLD`, and
PowerOff iff `d ≥ MAX_THRESHOLD` (the upper boundary is PowerOff); malformed
durations (negative, from clock regression) fall in the Ignored case and never
raise, and anything other than a High→Low edge performs no classification at
all. -/
theorem c1_pulse_classification (d : ℚ) :
    (classifyPulse d = Action.Ignored ↔ d ≤ SHUTDOWN_STATUS_REBOOT_PULSE_MINIMUM) ∧
    (classifyPulse d = Action.Reboot ↔
      SHUTDOWN_STATUS_REBOOT_PULSE_MINIMUM < d ∧ d < SHUTDOWN_STATUS_REBOOT_PULSE_MAXIMUM) ∧
    (classifyPulse d = Action.PowerOff ↔ SHUTDOWN_STATUS_REBOOT_PULSE_MAXIMUM ≤ d) ∧
    (d < 0 → classifyPulse d = Action.Ignored) ∧
    (∀ (old : Bool × ℚ) (status : Bool) (now : ℚ),
      ((onShutdownStatus old status now).2).isSome → old.1 = true ∧ status = false) ∧
    (∀ (old : Bool × ℚ) (now : ℚ), old.1 = true →
      (onShutdownStatus old false now).2 = some (classifyPulse (now - old.2))) := by
  have hlt : SHUTDOWN_STATUS_REBOOT_PULSE_MINIMUM < SHUTDOWN_STATUS_REBOOT_PULSE_MAXIMUM := by
    norm_num [SHUTDOWN_STATUS_REBOOT_PULSE_MINIMUM, SHUTDOWN_STATUS_REBOOT_PULSE_MAXIMUM]
  have hpos : (0 : ℚ) < SHUTDOWN_STATUS_REBOOT_PULSE_MINIMUM := by
    norm_num [SHUTDOWN_STATUS_REBOOT_PULSE_MINIMUM]
  refine ⟨?_, ?_, ?_, ?_, ?_, ?_⟩
  · rw [classifyPulse_eq]
    split_ifs with h1 h2 <;> simp_all
  · rw [classifyPulse_eq]
    split_ifs with h1 h2 <;> simp_all
  · rw [classifyPulse_eq]
    split_ifs with h1 h2 <;> simp_all
    linarith
  · intro h
    rw [classifyPulse_eq, if_pos (by linarith)]
  · intro old status now
    unfold onShutdownStatus
    rcases old with ⟨lvl, t⟩
    cases lvl <;> cases status <;> simp
  · intro old now h
    unfold onShutdownStatus
    rcases old with ⟨lvl, t⟩
    subst h
    simp

/-- C1, witness: a 0.5-second pulse classifies as Reboot, obtained from the
classification theorem. -/
theorem c1_pulse_classification_witness : classifyPulse (1/2) = Action.Reboot :=
  ((c1_pulse_classification (1/2)).2.1).mpr
    (by norm_num [SHUTDOWN_STATUS_REBOOT_PULSE_MINIMUM, SHUTDOWN_STATUS_REBOOT_PULSE_MAXIMUM])

/-- C2, counterexample: the claim states that on completion of
`poweroff(force)` the OS-level power-off operation is invoked exactly once,
but the method body performs no OS power-off call at all (shown here for
`force = true`): the `poweroff` system call lives in `_sys_poweroff`, reached
only through the shutdown-status classification path. -/
theorem c2_poweroff_counterexample :
    (poweroffOps true).countP isSysPoweroff = 0 ∧ (0 : ℕ) ≠ 1 := by
  decide

/-- C2 (amended): `poweroff(force)` drives the button output active, holds it
for a force-specific duration — the crash duration (10 s) when `force = true`
and the strictly shorter power-off duration (5 s) when `force = false` — then
drives it inactive; the method itself invokes no OS-level power-off call (that
call lives in `_sys_poweroff`, triggered via the shutdown-status line). -/
theorem c2_poweroff_trace (force : Bool) :
    poweroffOps force = [Op.pinOn, Op.sleep (poweroffHold force), Op.pinOff] ∧
    poweroffHold true = SHUTDOWN_BUTTON_CRASH_PULSE ∧
    poweroffHold false = SHUTDOWN_BUTTON_POWEROFF_PULSE ∧
    SHUTDOWN_BUTTON_POWEROFF_PULSE < SHUTDOWN_BUTTON_CRASH_PULSE ∧
    (poweroffOps force).countP isSysPoweroff = 0 ∧
    Op.sysPoweroff ∈ sysPoweroffOps := by
  refine ⟨rfl, rfl, rfl, ?_, ?_, by decide⟩
  · norm_num [SHUTDOWN_BUTTON_POWEROFF_PULSE, SHUTDOWN_BUTTON_CRASH_PULSE]
  · cases force <;> decide

/-- C9: `X730.open` and `X730.close` are idempotent through the `_opened`
flag: a second consecutive `open` (resp. `close`) returns the state unchanged
and performs no pin action, and `close` on a never-opened instance returns the
initial state untouched with no pin action. -/
theorem c9_open_close_idempotent (s : X730State) :
    x730Open (x730Open s).1 = ((x730Open s).1, []) ∧
    x730Close (x730Close s).1 = ((x730Close s).1, []) ∧
    x730Close initX730 = (initX730, []) := by
  refine ⟨?_, ?_, by decide⟩
  · cases h : s.opened <;> simp [x730Open, h]
  · cases h : s.opened <;> simp [x730Close, h]

/-- Helper: a successfully returned buffer is strictly below the limit,
because the limit guard runs at the head of every iteration. -/
theorem sockReceiveAll_ok_length (chunks : List (List ℕ)) :
    ∀ (L : ℕ) (buffer payload : List ℕ),
      sockReceiveAll (some L) chunks buffer = Except.ok payload → payload.length < L := by
  induction chunks with
  | nil =>
    intro L buffer payload h
    rw [sockReceiveAll] at h
    by_cases hb : limitExceeded (some L) buffer.length = true
    · rw [if_pos hb] at h
      exact absurd h (by simp)
    · rw [if_neg hb] at h
      simp only [Except.ok.injEq] at h
      subst h
      simpa [limitExceeded] using hb
  | cons c rest ih =>
    intro L buffer payload h
    rw [sockReceiveAll] at h
    by_cases hb : limitExceeded (some L) buffer.length = true
    · rw [if_pos hb] at h
      exact absurd h (by simp)
    · rw [if_neg hb] at h
      by_cases hc : c = []
      · rw [if_pos hc] at h
        simp only [Except.ok.injEq] at h
        subst h
        simpa [limitExceeded] using hb
      · rw [if_neg hc] at h
        exact ih L (buffer ++ c) payload h

/-- Helper: the limit guard does not fire exactly when the buffer is strictly
below the limit. -/
theorem limitExceeded_false_iff (L n : ℕ) :
    (¬ limitExceeded (some L) n = true) ↔ n < L := by
  simp [limitExceeded]

/-- Helper: once the delivered bytes reach the limit the receive loop raises
`OverflowError`, even when the stream would close right after. -/
theorem sockReceiveAll_limit_error (chunks : List (List ℕ)) :
    ∀ (L : ℕ) (buffer : List ℕ),
      (∀ c ∈ chunks, c ≠ []) →
      L ≤ buffer.length + chunks.flatten.length →
      sockReceiveAll (some L) chunks buffer = Except.error "socket receive limit exceeded" := by
  induction chunks with
  | nil =>
    intro L buffer _ hlen
    simp only [List.flatten_nil, List.length_nil, Nat.add_zero] at hlen
    rw [sockReceiveAll]
    rw [if_pos (by simp [limitExceeded]; omega)]
  | cons c rest ih =>
    intro L buffer hne hlen
    rw [sockReceiveAll]
    by_cases hb : limitExceeded (some L) buffer.length = true
    · rw [if_pos hb]
    · rw [if_neg hb]
      have hc : ¬ c = [] := hne c (by simp)
      rw [if_neg hc]
      refine ih L (buffer ++ c) (fun x hx => hne x (by simp [hx])) ?_
      simp only [List.flatten_cons, List.length_append] at hlen ⊢
      omega

/-- Helper: when the peer closes the stream with the total payload strictly
below the limit, the loop returns the complete payload. -/
theorem sockReceiveAll_complete (chunks : List (List ℕ)) :
    ∀ (L : ℕ) (buffer : List ℕ),
      (∀ c ∈ chunks, c ≠ []) →
      buffer.length + chunks.flatten.length < L →
      sockReceiveAll (some L) chunks buffer = Except.ok (buffer ++ chunks.flatten) := by
  induction chunks with
  | nil =>
    intro L buffer _ hlen
    simp only [List.flatten_nil, List.length_nil, Nat.add_zero] at hlen
    rw [sockReceiveAll]
    rw [if_neg ((limitExceeded_false_iff L buffer.length).mpr hlen)]
    simp
  | cons c rest ih =>
    intro L buffer hne hlen
    simp only [List.flatten_cons, List.length_append] at hlen
    rw [sockReceiveAll]
    rw [if_neg ((limitExceeded_false_iff L buffer.length).mpr (by omega))]
    have hc : ¬ c = [] := hne c (by simp)
    rw [if_neg hc]
    have hrec := ih L (buffer ++ c) (fun x hx => hne x (by simp [hx]))
      (by simp only [List.length_append]; omega)
    rw [hrec]
    simp [List.append_assoc]

/-- C10: for a receive limit `L`, `_sock_receive_all` returns the complete
payload only when its total length is strictly below `L`; whenever the
accumulated bytes reach `L` it raises `OverflowError` before attempting
another read, so a payload of exactly `L` bytes is rejected even if the peer
closes the stream immediately after; and a payload strictly below `L` is
returned in full. -/
theorem c10_receive_limit (L : ℕ) (chunks : List (List ℕ)) :
    (∀ payload, sockReceiveAll (some L) chunks [] = Except.ok payload → payload.length < L) ∧
    ((∀ c ∈ chunks, c ≠ []) → L ≤ chunks.flatten.length →
      sockReceiveAll (some L) chunks [] = Except.error "socket receive limit exceeded") ∧
    ((∀ c ∈ chunks, c ≠ []) → chunks.flatten.length < L →
      sockReceiveAll (some L) chunks [] = Except.ok chunks.flatten) := by
  refine ⟨fun payload h => sockReceiveAll_ok_length chunks L [] payload h,
    fun hne hlen => sockReceiveAll_limit_error chunks L [] hne (by simpa using hlen),
    fun hne hlen => ?_⟩
  have h := sockReceiveAll_complete chunks L [] hne (by simpa using hlen)
  simpa using h

/-- C10, witness: a one-byte payload against a one-byte limit is rejected
with the overflow error even though the peer closes right after. -/
theorem c10_receive_limit_witness :
    sockReceiveAll (some 1) [[5]] [] = Except.error "socket receive limit exceeded" :=
  (c10_receive_limit 1 [[5]]).2.1 (by decide) (by decide)

/-- C3: the modelled `serve` produces exactly one response per request, its
`api_id` always echoes the request's `api_id`, and a request whose identifier
is not registered yields a failure response (`exception = true`) rather than a
crash or an absent response. -/
theorem c3_serve_round_trip
    (registry : List (String × (List JValue → List (String × JValue) → Except String JValue)))
    (req : ApiRequest) :
    (serve registry req).api_id = req.api_id ∧
    (registry.find? (fun e => e.1 == req.api_id) = none →
      (serve registry req).exception = true) := by
  unfold serve
  cases h : registry.find? (fun e => e.1 == req.api_id) with
  | none => simp [h]
  | some e =>
    cases he : e.2 req.args req.kwargs <;> simp [h, he]

/-- C3, witness: against an empty registry, a request for `"reboot"` gets a
response echoing its identifier and flagged as a failure. -/
theorem c3_serve_round_trip_witness :
    (serve [] { api_id := "reboot", args := [], kwargs := [] }).api_id = "reboot" ∧
    (serve [] { api_id := "reboot", args := [], kwargs := [] }).exception = true := by
  have h := c3_serve_round_trip [] { api_id := "reboot", args := [], kwargs := [] }
  exact ⟨h.1, h.2 rfl⟩

/-- C4, code bug: both registered operations are decorated with
`@API(api_id=API.DEFAULT_API_ID)` and `API.__call__` never invokes the
documented generator `API.api_id` (it assigns `self.api_id or
API.get_api(func)` to the unused attribute `api`), so `Daemon.reboot` and
`Daemon.poweroff` both end up registered under the colliding identifier `''`,
with no startup check rejecting the collision — while the generator itself
would have produced distinct qualified names. -/
theorem c4_api_id_collision :
    registeredReboot.api_id = registeredPoweroff.api_id ∧
    registeredReboot.api_id = DEFAULT_API_ID ∧
    DEFAULT_API_ID = "" ∧
    API.api_id "Daemon.reboot" ≠ API.api_id "Daemon.poweroff" ∧
    registeredReboot.api ≠ some (API.api_id "Daemon.reboot") := by
  exact ⟨rfl, rfl, rfl, by decide, by decide⟩

/-- C5, counterexample: with the lock file missing — no daemon holds the
singleton lock — `Client._api_call` fails with `FileNotFoundError` from
`open(self._lock_file, "r+")`, which is not the daemon-not-running
`RuntimeError` the claim requires (though still before any connect). -/
theorem c5_probe_counterexample :
    (apiCall LockFileState.missing
      { api_id := "", response := JValue.null, exception := false }).2 =
        Except.error ClientError.fileNotFound ∧
    ClientError.fileNotFound ≠ ClientError.daemonNotRunning :=
  ⟨rfl, by decide⟩

/-- C5 (amended): whenever no daemon holds the singleton lock, the client call
fails before any connection to the socket is attempted; the failure is the
daemon-not-running error when the lock file exists but is unlocked, and a
file-not-found error when the lock file was never created. -/
theorem c5_probe_before_connect (ls : LockFileState) (resp : ApiResponse)
    (h : ls ≠ LockFileState.lockedByDaemon) :
    (apiCall ls resp).1 = false ∧
    (∃ e, (apiCall ls resp).2 = Except.error e) ∧
    (ls = LockFileState.unlocked →
      (apiCall ls resp).2 = Except.error ClientError.daemonNotRunning) := by
  cases ls with
  | missing => exact ⟨rfl, ⟨ClientError.fileNotFound, rfl⟩, fun h2 => by cases h2⟩
  | unlocked => exact ⟨rfl, ⟨ClientError.daemonNotRunning, rfl⟩, fun _ => rfl⟩
  | lockedByDaemon => exact absurd rfl h

/-- C5, witness: with the lock file present but unlocked, the call does not
connect and fails with the daemon-not-running error. -/
theorem c5_probe_before_connect_witness :
    (apiCall LockFileState.unlocked
      { api_id := "", response := JValue.null, exception := false }).1 = false ∧
    (apiCall LockFileState.unlocked
      { api_id := "", response := JValue.null, exception := false }).2 =
        Except.error ClientError.daemonNotRunning := by
  have h := c5_probe_before_connect LockFileState.unlocked
    { api_id := "", response := JValue.null, exception := false } (by decide)
  exact ⟨h.1, h.2.2 rfl⟩

/-- C6, counterexample: after an `open()` in which the lock was acquired but
the transport bind failed, `close()` raises (`FileNotFoundError` from
unlinking the never-created socket file) and skips releasing the hardware
resource, contradicting "without raising" and "releases exactly the resources
that were actually acquired". -/
theorem c6_close_counterexample :
    (serverClose (serverOpen false true).1).2.2 = some PyError.fileNotFoundError ∧
    (serverClose (serverOpen false true).1).1.x730Opened = true ∧
    TeardownEv.x730Close ∉ (serverClose (serverOpen false true).1).2.1 := by
  decide

/-- C6 (amended): after a fully successful `open()`, `close()` raises nothing
and releases the acquired resources in reverse order of acquisition (socket
and its file, then the advisory lock, then the hardware resource).  After a
partially failed `open()`, `close()` raises — `FileNotFoundError` when the
bind had failed (from unlinking the absent socket file) and `AttributeError`
when locking had failed (from reading the never-assigned `_lock_fd`) — and
skips releasing the hardware resource; the advisory lock itself is
nonetheless not left dangling: it is released by closing its descriptor, or
was never acquired. -/
theorem c6_close_after_open :
    (serverClose (serverOpen false false).1 =
      ({ initialServerState with lockFdSet := true },
       [TeardownEv.socketClose, TeardownEv.sockFileUnlink, TeardownEv.flockUnlock,
        TeardownEv.lockFdClose, TeardownEv.lockFileUnlink, TeardownEv.x730Close], none)) ∧
    ((serverClose (serverOpen false true).1).2.2 = some PyError.fileNotFoundError ∧
      (serverClose (serverOpen false true).1).1.x730Opened = true ∧
      (serverClose (serverOpen false true).1).1.lockFdOpen = false) ∧
    ((serverClose (serverOpen true false).1).2.2 = some PyError.attributeError ∧
      (serverClose (serverOpen true false).1).2.1 = [] ∧
      (serverClose (serverOpen true false).1).1.x730Opened = true ∧
      (serverClose (serverOpen true false).1).1.lockFdOpen = false) := by
  decide

/-- C7, counterexample: neither `reboot()` nor `poweroff()` contains any
mutex acquisition — `x730.py` defines no lock at all — and the execution in
which both pin activations happen before either deactivation is an
interleaving of the two call traces that coincides with neither serialized
order: interleaved pin toggling is not excluded. -/
theorem c7_no_mutex_counterexample :
    Op.mutexAcquire ∉ rebootOps ∧
    Op.mutexAcquire ∉ poweroffOps false ∧
    Interleave rebootOps (poweroffOps false) (interleavedTrace false) ∧
    interleavedTrace false ≠ rebootOps ++ poweroffOps false ∧
    interleavedTrace false ≠ poweroffOps false ++ rebootOps := by
  refine ⟨by decide, by decide, ?_, by decide, by decide⟩
  exact Interleave.left (Interleave.right (Interleave.left (Interleave.right
    (Interleave.left (Interleave.right Interleave.nil)))))

/-- C7 (amended): the executor's `reboot()` and `poweroff(force)` contain no
internal mutex operation at all, so their executions are not serialized: for
either value of `force` there is an interleaving of the two traces, with the
pin toggling interleaved, that is distinct from both serialized orders. -/
theorem c7_no_serialization (force : Bool) :
    Op.mutexAcquire ∉ rebootOps ∧
    Op.mutexRelease ∉ rebootOps ∧
    Op.mutexAcquire ∉ poweroffOps force ∧
    Op.mutexRelease ∉ poweroffOps force ∧
    Interleave rebootOps (poweroffOps force) (interleavedTrace force) ∧
    interleavedTrace force ≠ rebootOps ++ poweroffOps force ∧
    interleavedTrace force ≠ poweroffOps force ++ rebootOps := by
  have hI : Interleave rebootOps (poweroffOps force) (interleavedTrace force) :=
    Interleave.left (Interleave.right (Interleave.left (Interleave.right
      (Interleave.left (Interleave.right Interleave.nil)))))
  cases force <;>
    exact ⟨by decide, by decide, by decide, by decide, hI, by decide, by decide⟩

/-- Helper: the number of iterations `serve_until` performs does not depend
on which serve calls fail. -/
theorem serveUntilRun_count_indep (stop : Option (ℕ → Bool))
    (res res' : ℕ → Except String Unit) :
    ∀ (fuel i : ℕ),
      (serveUntilRun stop res i fuel).1 = (serveUntilRun stop res' i fuel).1 := by
  intro fuel
  induction fuel with
  | zero => intro i; rfl
  | succ n ih =>
    intro i
    simp only [serveUntilRun]
    by_cases h : serveKeepGoing stop i = true
    · simp [h, ih (i + 1)]
    · simp [h]

/-- Helper: with no stop event the loop never exits on its own. -/
theorem serveUntilRun_no_stop (res : ℕ → Except String Unit) :
    ∀ (fuel i : ℕ), (serveUntilRun none res i fuel).1 = fuel := by
  intro fuel
  induction fuel with
  | zero => intro i; rfl
  | succ n ih =>
    intro i
    simp only [serveUntilRun]
    have h : serveKeepGoing none i = true := rfl
    simp [h, ih (i + 1)]

/-- C8: no per-connection error is ever fatal to the server loop — the number
of iterations `serve_until` performs is entirely independent of which
`serve()` calls raise; the loop runs as long as fuel allows when no stop
event is given; it stops without serving as soon as the stop condition is
observed; and an iteration whose `serve()` raises logs the caught message and
continues with the next iteration. -/
theorem c8_serve_until_resilient (stop : Option (ℕ → Bool))
    (res res' : ℕ → Except String Unit) (i fuel : ℕ) :
    ((serveUntilRun stop res i fuel).1 = (serveUntilRun stop res' i fuel).1) ∧
    ((serveUntilRun none res i fuel).1 = fuel) ∧
    (∀ f, f i = true → serveUntilRun (some f) res i fuel = (0, [])) ∧
    (∀ m, serveKeepGoing stop i = true → res i = Except.error m →
      (serveUntilRun stop res i (fuel + 1)).2 =
        m :: (serveUntilRun stop res (i + 1) fuel).2 ∧
      (serveUntilRun stop res i (fuel + 1)).1 =
        (serveUntilRun stop res (i + 1) fuel).1 + 1) := by
  refine ⟨serveUntilRun_count_indep stop res res' fuel i,
    serveUntilRun_no_stop res fuel i, ?_, ?_⟩
  · intro f hf
    cases fuel with
    | zero => rfl
    | succ n =>
      have h : serveKeepGoing (some f) i = false := by
        simp [serveKeepGoing, hf]
      simp [serveUntilRun, h]
  · intro m hk he
    simp [serveUntilRun, hk, serveLogged, he]

/-- C8, witness: with no stop event and every serve call failing, three fuel
units yield three iterations, and the failing first iteration logs its
message and continues. -/
theorem c8_serve_until_resilient_witness :
    (serveUntilRun none (fun _ => Except.error "boom") 0 3).1 = 3 ∧
    (serveUntilRun none (fun _ => Except.error "boom") 0 3).2 =
      "boom" :: (serveUntilRun none (fun _ => Except.error "boom") 1 2).2 := by
  have h := c8_serve_until_resilient none (fun _ => Except.error "boom")
    (fun _ => Except.ok ()) 0 2
  have h3 := c8_serve_until_resilient none (fun _ => Except.error "boom")
    (fun _ => Except.ok ()) 0 3
  exact ⟨h3.2.1, (h.2.2.2 "boom" rfl rfl).1⟩

end X730Spec
